import Mathlib

/-!
# Verification of the apartment-transaction dashboard (`src/dashboard.py`)

A shallow embedding of the data-fetching and normalization pipeline of the
Streamlit dashboard, together with proofs of the specification's claims.

The remote API returns an XML envelope; `fetch_data` (dashboard.py lines
87-133) parses it and returns either an error string, `None` (no data), or a
table with one row per `<item>` element.  The main logic (lines 138-182)
renames remote tag names to domain column names, fills required columns with
default sentinels, and derives numeric / date columns.
-/

namespace Dashboard

/-- An XML element: a tag name, optional text content, and child elements.
Models the `xml.etree.ElementTree` element tree that `ET.fromstring` produces. -/
inductive XmlNode where
  | elem (tag : String) (text : Option String) (children : List XmlNode)
deriving Repr

def XmlNode.tag : XmlNode → String
  | .elem t _ _ => t

def XmlNode.text : XmlNode → Option String
  | .elem _ tx _ => tx

def XmlNode.children : XmlNode → List XmlNode
  | .elem _ _ ch => ch

mutual
/-- All descendants of a node (the node itself excluded) whose tag equals
`tag`, in document order.  Models `root.findall('.//' + tag)`. -/
def findAllDesc (tag : String) : XmlNode → List XmlNode
  | .elem _ _ ch => findAllList tag ch

/-- Document-order scan of a sibling list: each element (if it matches),
then its matching descendants, then the later siblings. -/
def findAllList (tag : String) : List XmlNode → List XmlNode
  | [] => []
  | c :: rest =>
      (if c.tag = tag then [c] else []) ++ findAllDesc tag c ++ findAllList tag rest
end

/-- First descendant with the given tag, in document order.
Models `root.find('.//' + tag)` (which returns `None` when absent). -/
def findFirst (tag : String) (root : XmlNode) : Option XmlNode :=
  (findAllDesc tag root).head?

/-- The HTTP response as `fetch_data` sees it: the raw body text, and the
result of `ET.fromstring` on it (`none` models `ET.ParseError`). -/
structure Response where
  text : String
  xml : Option XmlNode
deriving Repr

/-- Outcome of the `requests.get` call inside the `try` block: either the
request itself raised an exception (network failure, timeout, ...), carrying
the exception's message, or a response came back. -/
inductive FetchInput where
  | exn (msg : String)
  | resp (r : Response)
deriving Repr

/-- Return value of `fetch_data`: a Python `str` (error), `None` (no data),
or a `pd.DataFrame` built from one dict per `<item>`. -/
inductive FetchResult where
  | errorStr (s : String)
  | noData
  | table (rows : List (List (String × String)))
deriving Repr, DecidableEq

/-- Python `str.strip()`: remove leading and trailing whitespace. -/
def pyStrip (s : String) : String :=
  ⟨((s.data.dropWhile Char.isWhitespace).reverse.dropWhile Char.isWhitespace).reverse⟩

/-- Python `dict` insertion `d[k] = v`: overwrite in place when the key is
present, append otherwise (insertion order preserved). -/
def dictInsert (d : List (String × String)) (k v : String) : List (String × String) :=
  if d.any (fun p => p.1 = k) then d.map (fun p => if p.1 = k then (k, v) else p)
  else d ++ [(k, v)]

/-- Python `dict` lookup: the first entry with the key (keys are unique by
construction of `dictInsert`). -/
def dictGet : List (String × String) → String → Option String
  | [], _ => none
  | p :: rest, k => if p.1 = k then some p.2 else dictGet rest k

/-- One table row from an `<item>` element (dashboard.py lines 124-128):
`for child in item: if child.text: row[child.tag] = child.text.strip()`.
`if child.text:` is Python truthiness: `None` and the empty string are skipped. -/
def rowOfItem (item : XmlNode) : List (String × String) :=
  item.children.foldl
    (fun row c =>
      match c.text with
      | some s => if s = "" then row else dictInsert row c.tag (pyStrip s)
      | none => row)
    []

/-- The result-status values the service uses for success (line 114). -/
def successCodes : List String := ["00", "000"]

/-- The body of `fetch_data`'s `try` block after the request returned
(dashboard.py lines 106-130).  `Except.error m` models a Python exception
with message `m` escaping to the outer `except Exception` handler: the code
calls `.strip()` on `header_code.text` and `.text` on
`root.find('.//resultMsg')`, each of which raises `AttributeError` on `None`. -/
def fetchTry (r : Response) : Except String FetchResult :=
  match r.xml with
  | none => .ok (.errorStr ("🚨 서버 응답 오류 (XML 아님): " ++ r.text))
  | some root =>
    let afterHeader : Except String (Option FetchResult) :=
      match findFirst "resultCode" root with
      | none => .ok none
      | some hc =>
        match hc.text with
        | none => .error "AttributeError: NoneType object has no attribute strip"
        | some t =>
          let code := pyStrip t
          if code ∈ successCodes then .ok none
          else
            match findFirst "resultMsg" root with
            | none => .error "AttributeError: NoneType object has no attribute text"
            | some mc =>
              let msg := match mc.text with
                | some m => m
                | none => "None"
              .ok (some (.errorStr ("API Error: " ++ msg ++ " (코드: " ++ code ++ ")")))
    match afterHeader with
    | .error e => .error e
    | .ok (some res) => .ok res
    | .ok none =>
      let items := findAllDesc "item" root
      if items.isEmpty then .ok .noData
      else .ok (.table (items.map rowOfItem))

/-- `fetch_data` (dashboard.py lines 87-133): the whole body sits in a
`try`/`except Exception` whose handler returns the tagged string
`"통신 오류 발생: ..."`, so no exception propagates to the caller. -/
def fetch_data (inp : FetchInput) : FetchResult :=
  match inp with
  | .exn m => .errorStr ("통신 오류 발생: " ++ m)
  | .resp r =>
    match fetchTry r with
    | .ok res => res
    | .error e => .errorStr ("통신 오류 발생: " ++ e)

/-! ## Main logic: result dispatch (dashboard.py lines 154-158) -/

/-- What the main logic renders for a `fetch_data` result. -/
inductive UIOutcome where
  | errorBox (s : String)
  | infoNoData
  | dataView (rows : List (List (String × String)))
deriving Repr, DecidableEq

/-- Dispatch of the fetch result (lines 154-158): a `str` renders the error
box, `None` or an empty table renders the informational "no data" message,
otherwise the data view runs. -/
def renderResult (r : FetchResult) : UIOutcome :=
  match r with
  | .errorStr s => .errorBox s
  | .noData => .infoNoData
  | .table rows => if rows.isEmpty then .infoNoData else .dataView rows

/-! ## Column renaming and required-column defaults (lines 163-175) -/

/-- `col_map` (lines 163-169): remote tag name → domain column name. -/
def col_map : List (String × String) :=
  [("aptNm", "아파트"), ("단지명", "아파트"),
   ("dealAmount", "거래금액"), ("amount", "거래금액"),
   ("excluUseAr", "전용면적"), ("area", "전용면적"),
   ("umdNm", "법정동"), ("dong", "법정동"),
   ("floor", "층"), ("dealDay", "일"), ("day", "일")]

/-- `df.rename(columns=col_map)` applied to one column label: a label in the
map is replaced by its image, any other label (e.g. a Korean-scheme tag that
already equals the domain name) passes through unchanged. -/
def renameCol (c : String) : String :=
  match col_map.find? (fun p => p.1 = c) with
  | some p => p.2
  | none => c

/-- A `pd.DataFrame`: an ordered list of column labels and one cell dict per
row (a missing key models a NaN cell). -/
structure DF where
  cols : List String
  rows : List (List (String × String))
deriving Repr

/-- `pd.DataFrame(data)` from a list of row dicts: the column set is the
union of the rows' keys in order of first appearance. -/
def dfOfRows (rows : List (List (String × String))) : DF :=
  { cols := (rows.flatMap (fun r => r.map Prod.fst)).foldl
      (fun acc k => if k ∈ acc then acc else acc ++ [k]) [],
    rows := rows }

/-- `df.rename(columns=col_map)` on the whole frame. -/
def renameDF (df : DF) : DF :=
  { cols := df.cols.map renameCol,
    rows := df.rows.map (fun r => r.map (fun p => (renameCol p.1, p.2))) }

/-- The required domain columns (line 173). -/
def requiredCols : List String := ["아파트", "거래금액", "전용면적", "법정동", "층", "일"]

/-- Default sentinel for an absent required column (line 175):
`"-" if col != '거래금액' else "0"`. -/
def defaultFor (c : String) : String := if c = "거래금액" then "0" else "-"

/-- One iteration of the loop of lines 173-175: `if col not in df.columns:
df[col] = default` — create the column and assign the sentinel to every row. -/
def addColIfMissing (d : DF) (c : String) : DF :=
  if c ∈ d.cols then d
  else { cols := d.cols ++ [c], rows := d.rows.map (fun r => dictInsert r c (defaultFor c)) }

/-- Lines 172-175: for each required column absent from the frame, create it
and set every row's cell to the default sentinel. -/
def fillRequired (df : DF) : DF :=
  requiredCols.foldl addColIfMissing df

/-! ## Numeric derivations (lines 178-182)

Python/NumPy floats are modelled by `PFloat`: a finite rational, the two
infinities, or NaN.  Decimal literals become exact rationals (the claims are
about the arithmetic structure, not rounding). -/

/-- A NumPy double: finite value, ±infinity, or NaN. -/
inductive PFloat where
  | fin (q : ℚ)
  | inf
  | ninf
  | nan
deriving Repr, DecidableEq

/-- NumPy float division, including the division-by-zero cases: `x/0` is
`inf`/`-inf` for nonzero `x` and `nan` for `0/0` (a warning, not an error —
the program never crashes here). -/
def pdiv : PFloat → PFloat → PFloat
  | .fin a, .fin b =>
      if b = 0 then (if a = 0 then .nan else if 0 < a then .inf else .ninf)
      else .fin (a / b)
  | .fin _, .inf => .fin 0
  | .fin _, .ninf => .fin 0
  | .inf, .fin b => if b < 0 then .ninf else .inf
  | .ninf, .fin b => if b < 0 then .inf else .ninf
  | _, _ => .nan

/-- `PFloat` is a finite value (not `inf`, `-inf` or `nan`). -/
def PFloat.isFinite : PFloat → Bool
  | .fin _ => true
  | _ => false

/-- The area constant `3.3058` of lines 181 as an exact rational. -/
def areaConstant : ℚ := 33058 / 10000

/-- Line 181: `df['평수'] = df['전용면적_숫자'] / 3.3058` for one cell.
`전용면적_숫자` comes from `pd.to_numeric(..., errors='coerce').fillna(0)`,
so it is always a finite float (unparseable text became `0`). -/
def pyeongsu (area : ℚ) : PFloat := pdiv (.fin area) (.fin areaConstant)

/-- Line 182: `df['평당가'] = df['거래금액_숫자'] / df['평수']` for one cell
(`거래금액_숫자` is the parsed integer price). -/
def pyeongdanga (price : ℚ) (area : ℚ) : PFloat := pdiv (.fin price) (pyeongsu area)

/-! ## Monetary parsing (line 178) -/

/-- `.str.replace(',', '')` on one cell: every separator character removed. -/
def stripSeparators (s : String) : String := ⟨s.data.filter (fun c => c ≠ ',')⟩

/-- `int(s)` on a plain non-negative digit string (the shape monetary fields
take after separator stripping); any other shape raises, which is a fatal
load error (`.astype(int)` propagates it). -/
def pyInt (s : String) : Option ℕ :=
  if s.data ≠ [] ∧ s.data.all Char.isDigit then
    some (s.data.foldl (fun n c => 10 * n + (c.toNat - '0'.toNat)) 0)
  else none

/-- Line 178 for one cell: strip separators, then parse as integer. -/
def parseDealAmount (s : String) : Option ℕ := pyInt (stripSeparators s)

/-! ## Contract-date construction (line 180) -/

/-- pandas `Series.str.zfill(width)` on the character list: plain left-pad
with `'0'` up to `width`.  Unlike Python's `str.zfill`, pandas has no
special handling of a leading `'+'`/`'-'` sign (so `"-"` becomes `"0-"`). -/
def zfillData (width : Nat) (l : List Char) : List Char :=
  List.replicate (width - l.length) '0' ++ l

/-- pandas `Series.str.zfill(width)` on one cell. -/
def zfill (width : Nat) (s : String) : String := ⟨zfillData width s.data⟩

/-- Line 180 for one cell:
`df['계약일'] = current_ymd + df['일'].astype(str).str.zfill(2)` — a plain
string concatenation; no parsing or validation is applied to the result. -/
def contractDate (ymd day : String) : String := ymd ++ zfill 2 day

/-- An 8-character digit string `YYYYMMDD` whose month is 1-12 and whose day
is 1-31: the "8-digit calendar date" shape the spec describes. -/
def isValidDate8 (s : String) : Bool :=
  (s.length == 8) && s.data.all Char.isDigit &&
    (match pyInt ⟨(s.data.drop 4).take 2⟩, pyInt ⟨s.data.drop 6⟩ with
     | some m, some d => decide (1 ≤ m) && decide (m ≤ 12) && decide (1 ≤ d) && decide (d ≤ 31)
     | _, _ => false)

/-! ## Forecaster (modelled from the spec)

`src/` contains only `dashboard.py`, which has no forecaster; the spec
describes it as part of the shared pipeline of this repository's variants. -/

/-- Modelled from the spec: the Forecaster's hard precondition (§4.5) — the
cohort view must have at least 5 rows, otherwise forecasting is refused. -/
def minRowsForForecast : ℕ := 5

/-- Modelled from the spec: the fixed forward spacing of prediction points,
15 days (§4.5). -/
def forecastStep : ℕ := 15

/-- Modelled from the spec: the configured number of forward prediction
points — offsets 15, 30, …, up to but not including 180 days, i.e. 11
points (§4.5). -/
def forecastNumPoints : ℕ := 11

/-- The last observed date of a cohort view (ordered ascending by contract
date, §4.4), as an ordinal day number. -/
def lastObservedDate (rows : List (ℕ × ℚ)) : ℕ :=
  (rows.map Prod.fst).getLastD 0

/-- Modelled from the spec: the dates of the forward prediction points —
fixed offsets of one step each from the last observed date (§4.5). -/
def forecastPoints (rows : List (ℕ × ℚ)) : List ℕ :=
  (List.range forecastNumPoints).map
    (fun i => lastObservedDate rows + forecastStep * (i + 1))

/-- Modelled from the spec: the Forecaster absent from `src/dashboard.py` —
refuse cohorts below the minimum row count, otherwise produce the prediction
dates (§4.5); the fitted line is then evaluated at each date, which does not
affect the dates themselves. -/
def forecastDates (rows : List (ℕ × ℚ)) : Option (List ℕ) :=
  if rows.length < minRowsForForecast then none
  else some (forecastPoints rows)

/-- A 4-row demonstration cohort (below the forecasting threshold). -/
def demoCohort4 : List (ℕ × ℚ) := [(10, 100), (20, 110), (30, 120), (40, 130)]

/-- A 5-row demonstration cohort (at the forecasting threshold). -/
def demoCohort5 : List (ℕ × ℚ) := [(10, 100), (20, 110), (30, 120), (40, 130), (50, 140)]

/-! ## Theorems about `fetch_data` -/

/-- C1: for every response that parses as XML, whose first `resultCode`
element carries a value outside the success set `{00, 000}`, and which
carries a `resultMsg` element with a message, `fetch_data` returns the
structured string `API Error: <message> (코드: <code>)` with the
server-supplied message verbatim — it neither crashes nor produces a
generic unlabeled failure. -/
theorem C1_apiError (r : Response) (root hc mc : XmlNode) (t m : String)
    (hx : r.xml = some root)
    (hhc : findFirst "resultCode" root = some hc)
    (ht : hc.text = some t)
    (hne : pyStrip t ∉ successCodes)
    (hmc : findFirst "resultMsg" root = some mc)
    (hm : mc.text = some m) :
    fetch_data (.resp r) = .errorStr ("API Error: " ++ m ++ " (코드: " ++ pyStrip t ++ ")") := by
  simp [fetch_data, fetchTry, hx, hhc, ht, hmc, hm, hne]

/-- C1 witness: a concrete XML envelope with `resultCode` 99 yields the
structured API error carrying the server's message. -/
theorem C1_apiError_witness :
    fetch_data (.resp ⟨"raw", some (.elem "response" none
        [.elem "header" none
          [.elem "resultCode" (some "99") [],
           .elem "resultMsg" (some "SERVICE KEY IS NOT REGISTERED ERROR.") []]])⟩)
      = .errorStr "API Error: SERVICE KEY IS NOT REGISTERED ERROR. (코드: 99)" :=
  C1_apiError _
    (.elem "response" none
      [.elem "header" none
        [.elem "resultCode" (some "99") [],
         .elem "resultMsg" (some "SERVICE KEY IS NOT REGISTERED ERROR.") []]])
    (.elem "resultCode" (some "99") [])
    (.elem "resultMsg" (some "SERVICE KEY IS NOT REGISTERED ERROR.") [])
    "99" "SERVICE KEY IS NOT REGISTERED ERROR."
    rfl rfl rfl (by decide) rfl rfl

/-- C2: a response with a success status code and zero `<item>` elements
makes `fetch_data` return `None` (the distinguished no-data outcome, not an
error string), and the main logic renders it as the informational
"no transactions reported" state. -/
theorem C2_successNoItems (r : Response) (root hc : XmlNode) (t : String)
    (hx : r.xml = some root)
    (hhc : findFirst "resultCode" root = some hc)
    (ht : hc.text = some t)
    (hs : pyStrip t ∈ successCodes)
    (hitems : findAllDesc "item" root = []) :
    fetch_data (.resp r) = .noData ∧
      renderResult (fetch_data (.resp r)) = .infoNoData := by
  have h : fetch_data (.resp r) = .noData := by
    simp [fetch_data, fetchTry, hx, hhc, ht, hs, hitems]
  exact ⟨h, by rw [h]; rfl⟩

/-- C2 witness: a concrete success envelope with an empty `<items>` body. -/
theorem C2_successNoItems_witness :
    fetch_data (.resp ⟨"raw", some (.elem "response" none
        [.elem "header" none
          [.elem "resultCode" (some "000") [], .elem "resultMsg" (some "OK") []],
         .elem "body" none [.elem "items" none []]])⟩) = .noData ∧
      renderResult (fetch_data (.resp ⟨"raw", some (.elem "response" none
        [.elem "header" none
          [.elem "resultCode" (some "000") [], .elem "resultMsg" (some "OK") []],
         .elem "body" none [.elem "items" none []]])⟩)) = .infoNoData :=
  C2_successNoItems _
    (.elem "response" none
      [.elem "header" none
        [.elem "resultCode" (some "000") [], .elem "resultMsg" (some "OK") []],
       .elem "body" none [.elem "items" none []]])
    (.elem "resultCode" (some "000") []) "000"
    rfl rfl rfl (by decide) rfl

/-- C3: a response body that does not parse as XML makes `fetch_data` return
the tagged transport/format error string, with the raw response body
embedded in it, instead of letting the parse exception escape. -/
theorem C3_nonXml (r : Response) (hx : r.xml = none) :
    fetch_data (.resp r) = .errorStr ("🚨 서버 응답 오류 (XML 아님): " ++ r.text) := by
  simp [fetch_data, fetchTry, hx]

/-- C3 witness: a concrete HTML error page is returned inside the tagged
transport error string. -/
theorem C3_nonXml_witness :
    fetch_data (.resp ⟨"<html>502 Bad Gateway", none⟩)
      = .errorStr ("🚨 서버 응답 오류 (XML 아님): " ++ "<html>502 Bad Gateway") :=
  C3_nonXml ⟨"<html>502 Bad Gateway", none⟩ rfl

/-- C10: `fetch_data` is total — for every request outcome it returns
exactly one of an error string, the no-data sentinel, or a table with one
row per `<item>` element of the parsed document; every exception raised
inside the body is converted into a tagged error string, so none propagates. -/
theorem C10_fetchTotal (inp : FetchInput) :
    (∃ s, fetch_data inp = .errorStr s) ∨ fetch_data inp = .noData ∨
      (∃ r root rows, inp = .resp r ∧ r.xml = some root ∧
        fetch_data inp = .table rows ∧
        rows.length = (findAllDesc "item" root).length) := by
  cases inp with
  | exn m => exact Or.inl ⟨_, rfl⟩
  | resp r =>
    cases hx : r.xml with
    | none =>
      exact Or.inl ⟨"🚨 서버 응답 오류 (XML 아님): " ++ r.text,
        by simp [fetch_data, fetchTry, hx]⟩
    | some root =>
      cases hhc : findFirst "resultCode" root with
      | none =>
        cases hi : (findAllDesc "item" root).isEmpty with
        | true =>
          refine Or.inr (Or.inl ?_)
          simp [fetch_data, fetchTry, hx, hhc, hi]
        | false =>
          refine Or.inr (Or.inr ⟨r, root, (findAllDesc "item" root).map rowOfItem,
            rfl, hx, ?_, List.length_map _ _⟩)
          simp [fetch_data, fetchTry, hx, hhc, hi]
      | some hc =>
        cases ht : hc.text with
        | none =>
          exact Or.inl
            ⟨"통신 오류 발생: AttributeError: NoneType object has no attribute strip",
             by simp [fetch_data, fetchTry, hx, hhc, ht]⟩
        | some t =>
          by_cases hs : pyStrip t ∈ successCodes
          · cases hi : (findAllDesc "item" root).isEmpty with
            | true =>
              refine Or.inr (Or.inl ?_)
              simp [fetch_data, fetchTry, hx, hhc, ht, hs, hi]
            | false =>
              refine Or.inr (Or.inr ⟨r, root, (findAllDesc "item" root).map rowOfItem,
                rfl, hx, ?_, List.length_map _ _⟩)
              simp [fetch_data, fetchTry, hx, hhc, ht, hs, hi]
          · cases hmc : findFirst "resultMsg" root with
            | none =>
              exact Or.inl
                ⟨"통신 오류 발생: AttributeError: NoneType object has no attribute text",
                 by simp [fetch_data, fetchTry, hx, hhc, ht, hs, hmc]⟩
            | some mc =>
              cases hm : mc.text with
              | none =>
                exact Or.inl ⟨"API Error: " ++ "None" ++ " (코드: " ++ pyStrip t ++ ")",
                  by simp [fetch_data, fetchTry, hx, hhc, ht, hs, hmc, hm]⟩
              | some m =>
                exact Or.inl ⟨"API Error: " ++ m ++ " (코드: " ++ pyStrip t ++ ")",
                  by simp [fetch_data, fetchTry, hx, hhc, ht, hs, hmc, hm]⟩

/-! ## Theorems about the numeric derivations -/

/-- C4 counterexample: the pipeline has no zero-area guard.  A record whose
`전용면적` cell is unparseable or `0` gets numeric area `0` (line 179 coerces
and fills with `0`), the divisor `평수` then *is* computed as `0`, and line
182 performs the division by zero, yielding an infinite unit price. -/
theorem C4_noGuard_counterexample :
    pyeongsu 0 = .fin 0 ∧ pyeongdanga 100 0 = .inf ∧
      (pyeongdanga 100 0).isFinite = false := by
  refine ⟨?_, ?_, ?_⟩ <;> norm_num [pyeongsu, pyeongdanga, pdiv, areaConstant, PFloat.isFinite]

/-- C4 amended: for every positive floor area the derived unit price equals
`price / (area / 3.3058)` exactly; the computation is *not* guarded, and a
zero floor area (possible, since unparseable areas are coerced to `0`) makes
line 182 divide by zero, producing an infinite — non-finite — unit price
rather than a crash. -/
theorem C4_unitPrice (price area : ℚ) :
    (0 < area → pyeongdanga price area = .fin (price / (area / areaConstant))) ∧
    (area = 0 → 0 < price → pyeongdanga price area = .inf) := by
  have hc : areaConstant ≠ 0 := by norm_num [areaConstant]
  refine ⟨fun h => ?_, fun h0 hp => ?_⟩
  · have h1 : area / areaConstant ≠ 0 := div_ne_zero (ne_of_gt h) hc
    simp [pyeongdanga, pyeongsu, pdiv, hc, h1]
  · subst h0
    simp [pyeongdanga, pyeongsu, pdiv, hc, hp, ne_of_gt hp]

/-- C4 witness: a unit of exactly one traditional area unit (3.3058 m²) at
price 100 has unit price 100, and price 100 over area 0 gives infinity. -/
theorem C4_unitPrice_witness :
    pyeongdanga 100 areaConstant = .fin (100 / (areaConstant / areaConstant)) ∧
    pyeongdanga 100 0 = .inf :=
  ⟨(C4_unitPrice 100 areaConstant).1 (by norm_num [areaConstant]),
   (C4_unitPrice 100 0).2 rfl (by norm_num)⟩

/-- C6: stripping the thousands separators from a monetary string and
parsing yields exactly the integer parsed from the un-separated digit
string, and the parse succeeds (no fatal load error) whenever the digits are
non-empty. -/
theorem C6_moneyRoundTrip (s d : String)
    (hshape : s.data.filter (fun c => c ≠ ',') = d.data)
    (hne : d.data ≠ [])
    (hdigits : d.data.all Char.isDigit) :
    parseDealAmount s = pyInt d ∧ ∃ n, parseDealAmount s = some n := by
  have hs : stripSeparators s = d := by
    unfold stripSeparators
    rw [hshape]
  have h1 : parseDealAmount s = pyInt d := by rw [parseDealAmount, hs]
  refine ⟨h1, ?_⟩
  rw [h1, pyInt, if_pos ⟨hne, hdigits⟩]
  exact ⟨_, rfl⟩

/-- C6 witness: `"1,234,567"` parses to the same integer as `"1234567"`. -/
theorem C6_moneyRoundTrip_witness :
    parseDealAmount "1,234,567" = pyInt "1234567" ∧
      ∃ n, parseDealAmount "1,234,567" = some n :=
  C6_moneyRoundTrip "1,234,567" "1234567" (by decide) (by decide) (by decide)

/-- C7: the column renaming accepts both historically-seen remote tag
spellings of each logical field and sends both to the same domain column
name.  Five fields list both spellings in `col_map`; for the floor field the
new-scheme tag `floor` is mapped and the old-scheme tag (the Korean domain
name itself) passes through `df.rename` unchanged, landing on the same
column. -/
theorem C7_colMapVariants :
    (renameCol "aptNm" = "아파트" ∧ renameCol "단지명" = "아파트") ∧
    (renameCol "dealAmount" = "거래금액" ∧ renameCol "amount" = "거래금액") ∧
    (renameCol "excluUseAr" = "전용면적" ∧ renameCol "area" = "전용면적") ∧
    (renameCol "umdNm" = "법정동" ∧ renameCol "dong" = "법정동") ∧
    (renameCol "floor" = "층" ∧ renameCol "층" = "층") ∧
    (renameCol "dealDay" = "일" ∧ renameCol "day" = "일") := by
  decide

/-- C9 counterexample: the day cell `"-"` — exactly the sentinel line 175
substitutes when the remote response lacks a day field — is padded by pandas
to `"0-"` and produces the composite `"2024120-"`, which is not an 8-digit
calendar date, yet the (total) construction keeps it; nothing in lines
178-182 parses or validates the composite, so no fatal load error occurs. -/
theorem C9_noDateParse_counterexample :
    contractDate "202412" "-" = "2024120-" ∧
      isValidDate8 (contractDate "202412" "-") = false := by
  decide

/-- C9 amended: the contract date is constructed by concatenating the
year-month string with the zero-padded two-digit day string, as a plain
string; for digit day fields of one or two characters the composite has
exactly 8 characters and consists of digits, but no calendar-date parsing or
validation is performed, so an invalid composite is silently retained (see
the counterexample) instead of failing the load. -/
theorem C9_contractDateConcat (ymd day : String)
    (hy6 : ymd.length = 6) (hyd : ymd.data.all Char.isDigit)
    (hd : day.length = 1 ∨ day.length = 2) (hds : day.data.all Char.isDigit) :
    (contractDate ymd day).length = 8 ∧
    (contractDate ymd day).data.all Char.isDigit ∧
    (contractDate ymd day).data = ymd.data ++ (zfill 2 day).data := by
  have hz : (zfill 2 day).data.length = 2 ∧ (zfill 2 day).data.all Char.isDigit := by
    rcases hd with h1 | h2
    · have hlen : day.data.length = 1 := h1
      obtain ⟨c, hc⟩ := List.length_eq_one.mp hlen
      have hcd : c.isDigit := by rw [hc] at hds; simpa using hds
      have hzz : (zfill 2 day).data = ['0', c] := by
        simp [zfill, zfillData, hc]
      rw [hzz]
      simp [hcd]
    · have hlen : day.data.length = 2 := h2
      have hzz : (zfill 2 day).data = day.data := by
        simp [zfill, zfillData, hlen]
      rw [hzz]
      exact ⟨hlen, hds⟩
  have hcd : (contractDate ymd day).data = ymd.data ++ (zfill 2 day).data := by
    simp [contractDate]
  refine ⟨?_, ?_, hcd⟩
  · have : (contractDate ymd day).length = (contractDate ymd day).data.length := rfl
    rw [this, hcd, List.length_append]
    have : ymd.data.length = 6 := hy6
    omega
  · rw [hcd, List.all_append, hyd, hz.2]
    rfl

/-- C9 amended witness: year-month `202412` with day `5` builds `20241205`. -/
theorem C9_contractDateConcat_witness :
    (contractDate "202412" "5").length = 8 ∧
    (contractDate "202412" "5").data.all Char.isDigit ∧
    (contractDate "202412" "5").data = "202412".data ++ (zfill 2 "5").data :=
  C9_contractDateConcat "202412" "5" (by decide) (by decide) (Or.inl (by decide)) (by decide)

/-! ## Dictionary and column-fill lemmas -/

theorem dictGet_map_update_of_any (d : List (String × String)) (k v : String)
    (h : d.any (fun p => p.1 = k)) :
    dictGet (d.map (fun p => if p.1 = k then (k, v) else p)) k = some v := by
  induction d with
  | nil => simp at h
  | cons p rest ih =>
    by_cases hp : p.1 = k
    · simp [dictGet, hp]
    · have hrest : rest.any (fun q => q.1 = k) := by
        simpa [List.any_cons, hp] using h
      simpa [dictGet, hp] using ih hrest

theorem dictGet_append_single_of_not_any (d : List (String × String)) (k v : String)
    (h : ¬ d.any (fun p => p.1 = k)) :
    dictGet (d ++ [(k, v)]) k = some v := by
  induction d with
  | nil => simp [dictGet]
  | cons p rest ih =>
    have hp : ¬ p.1 = k := fun hk => h (by simp [List.any_cons, hk])
    have hrest : ¬ rest.any (fun q => q.1 = k) := fun hk => h (by simp [List.any_cons, hk])
    simpa [dictGet, hp] using ih hrest

theorem dictGet_dictInsert_self (d : List (String × String)) (k v : String) :
    dictGet (dictInsert d k v) k = some v := by
  unfold dictInsert
  by_cases h : d.any (fun p => p.1 = k)
  · rw [if_pos h]
    exact dictGet_map_update_of_any d k v h
  · rw [if_neg h]
    exact dictGet_append_single_of_not_any d k v h

theorem dictGet_map_update_ne (d : List (String × String)) (k k' v : String)
    (hne : k ≠ k') :
    dictGet (d.map (fun p => if p.1 = k' then (k', v) else p)) k = dictGet d k := by
  induction d with
  | nil => rfl
  | cons p rest ih =>
    by_cases hp : p.1 = k'
    · have hpk : ¬ p.1 = k := by rw [hp]; exact fun hk => hne hk.symm
      have hk'k : ¬ k' = k := fun hk => hne hk.symm
      simp [dictGet, hp, hpk, hk'k, ih]
    · by_cases hpk : p.1 = k
      · simp [dictGet, hp, hpk, hne]
      · simp [dictGet, hp, hpk, ih]

theorem dictGet_dictInsert_ne (d : List (String × String)) (k k' v : String)
    (hne : k ≠ k') :
    dictGet (dictInsert d k' v) k = dictGet d k := by
  unfold dictInsert
  by_cases h : d.any (fun p => p.1 = k')
  · rw [if_pos h]
    exact dictGet_map_update_ne d k k' v hne
  · rw [if_neg h]
    have hk'k : ¬ k' = k := fun hk => hne hk.symm
    induction d with
    | nil => simp [dictGet, hk'k]
    | cons p rest ih =>
      have hrest : ¬ (rest.any fun q => q.1 = k') = true := by
        intro hk
        exact h (by simp [List.any_cons, hk])
      by_cases hpk : p.1 = k
      · simp [dictGet, hpk]
      · simp [dictGet, hpk, ih hrest]

theorem mem_cols_addColIfMissing (d : DF) (c x : String) (h : x ∈ d.cols) :
    x ∈ (addColIfMissing d c).cols := by
  unfold addColIfMissing
  split
  · exact h
  · exact List.mem_append_left _ h

theorem self_mem_cols_addColIfMissing (d : DF) (c : String) :
    c ∈ (addColIfMissing d c).cols := by
  unfold addColIfMissing
  split
  · assumption
  · exact List.mem_append_right _ (List.mem_singleton.mpr rfl)

theorem mem_cols_foldl (l : List String) (d : DF) (x : String) (h : x ∈ d.cols) :
    x ∈ (l.foldl addColIfMissing d).cols := by
  induction l generalizing d with
  | nil => exact h
  | cons a t ih => exact ih _ (mem_cols_addColIfMissing _ _ _ h)

theorem mem_cols_foldl_of_mem (l : List String) (d : DF) (c : String) (h : c ∈ l) :
    c ∈ (l.foldl addColIfMissing d).cols := by
  induction l generalizing d with
  | nil => cases h
  | cons a t ih =>
    rcases List.mem_cons.mp h with rfl | h'
    · exact mem_cols_foldl t (addColIfMissing d c) c (self_mem_cols_addColIfMissing d c)
    · exact ih _ h'

theorem dictGet_rows_foldl_preserved (l : List String) (d : DF) (c v : String)
    (hcl : c ∉ l) (h : ∀ r ∈ d.rows, dictGet r c = some v) :
    ∀ r ∈ (l.foldl addColIfMissing d).rows, dictGet r c = some v := by
  induction l generalizing d with
  | nil => exact h
  | cons a t ih =>
    have hca : c ≠ a := fun hh => hcl (hh ▸ List.mem_cons_self a t)
    refine ih _ (fun hh => hcl (List.mem_cons_of_mem _ hh)) ?_
    intro r hr
    unfold addColIfMissing at hr
    split at hr
    · exact h r hr
    · simp only [List.mem_map] at hr
      obtain ⟨r0, hr0, rfl⟩ := hr
      rw [dictGet_dictInsert_ne _ _ _ _ hca]
      exact h r0 hr0

theorem dictGet_rows_fill (l : List String) (d : DF) (c : String)
    (hc : c ∈ l) (hnd : l.Nodup) (hnc : c ∉ d.cols) :
    ∀ r ∈ (l.foldl addColIfMissing d).rows, dictGet r c = some (defaultFor c) := by
  induction l generalizing d with
  | nil => cases hc
  | cons a t ih =>
    rcases List.mem_cons.mp hc with rfl | hct
    · have hstep : addColIfMissing d c =
          ⟨d.cols ++ [c], d.rows.map (fun r => dictInsert r c (defaultFor c))⟩ := by
        unfold addColIfMissing
        rw [if_neg hnc]
      have hnotin : c ∉ t := (List.nodup_cons.mp hnd).1
      refine dictGet_rows_foldl_preserved t _ c _ hnotin ?_
      rw [hstep]
      intro r hr
      simp only [List.mem_map] at hr
      obtain ⟨r0, _, rfl⟩ := hr
      exact dictGet_dictInsert_self _ _ _
    · have hat : a ∉ t := (List.nodup_cons.mp hnd).1
      have hca : c ≠ a := fun hh => hat (hh ▸ hct)
      refine ih _ hct (List.nodup_cons.mp hnd).2 ?_
      unfold addColIfMissing
      split
      · exact hnc
      · intro hmem
        rcases List.mem_append.mp hmem with h1 | h2
        · exact hnc h1
        · exact hca (List.mem_singleton.mp h2)

/-- C8: after the required-column pass, every required column is present; a
required column absent from the response is created with its fixed default
sentinel in every row (`"0"` for the monetary column `거래금액`, `"-"` for
the others) rather than being treated as an error. -/
theorem C8_requiredDefaults (df : DF) :
    (∀ c ∈ requiredCols, c ∈ (fillRequired df).cols) ∧
    (∀ c ∈ requiredCols, c ∉ df.cols →
        ∀ r ∈ (fillRequired df).rows, dictGet r c = some (defaultFor c)) ∧
    defaultFor "거래금액" = "0" ∧
    (∀ c ∈ requiredCols, c ≠ "거래금액" → defaultFor c = "-") :=
  ⟨fun c hc => mem_cols_foldl_of_mem _ _ _ hc,
   fun c hc hnc => dictGet_rows_fill _ _ _ hc (by decide) hnc,
   rfl,
   fun c _ hne => by simp [defaultFor, hne]⟩

/-- C8 witness: a one-row frame carrying only the apartment name gets the
five missing required columns; the monetary column is filled with `"0"`. -/
theorem C8_requiredDefaults_witness :
    "거래금액" ∈ (fillRequired (dfOfRows [[("아파트", "에이")]])).cols ∧
    dictGet [("아파트", "에이"), ("거래금액", "0"), ("전용면적", "-"),
             ("법정동", "-"), ("층", "-"), ("일", "-")] "거래금액" = some "0" :=
  ⟨(C8_requiredDefaults (dfOfRows [[("아파트", "에이")]])).1 "거래금액" (by decide),
   (C8_requiredDefaults (dfOfRows [[("아파트", "에이")]])).2.1 "거래금액" (by decide)
     (by decide) _ (by decide)⟩

/-! ## Forecaster theorems -/

/-- C5: below 5 cohort rows the forecaster refuses to run; at 5 rows or more
it produces exactly the configured number of prediction points, strictly
increasing in date, each spaced one fixed interval after the previous. -/
theorem C5_forecastShape (rows : List (ℕ × ℚ)) :
    (rows.length < minRowsForForecast → forecastDates rows = none) ∧
    (minRowsForForecast ≤ rows.length →
      forecastDates rows = some (forecastPoints rows) ∧
      (forecastPoints rows).length = forecastNumPoints ∧
      (∀ i j (hj : j < (forecastPoints rows).length) (hij : i < j),
        (forecastPoints rows).get ⟨i, by omega⟩ < (forecastPoints rows).get ⟨j, hj⟩) ∧
      (∀ i (hi : i + 1 < (forecastPoints rows).length),
        (forecastPoints rows).get ⟨i + 1, hi⟩ =
          (forecastPoints rows).get ⟨i, by omega⟩ + forecastStep)) := by
  constructor
  · intro h
    simp [forecastDates, h]
  · intro h
    refine ⟨by simp [forecastDates, Nat.not_lt.mpr h], ?_, ?_, ?_⟩
    · simp [forecastPoints]
    · intro i j hj hij
      simp only [forecastPoints, forecastStep, List.get_eq_getElem, List.getElem_map,
        List.getElem_range]
      omega
    · intro i hi
      simp only [forecastPoints, forecastStep, List.get_eq_getElem, List.getElem_map,
        List.getElem_range]
      omega

/-- C5 witness: a 4-row cohort is refused; a 5-row cohort gets 11 points,
the first pair spaced by 15 days and the whole run increasing. -/
theorem C5_forecastShape_witness :
    forecastDates demoCohort4 = none ∧
    forecastDates demoCohort5 = some (forecastPoints demoCohort5) ∧
    (forecastPoints demoCohort5).length = forecastNumPoints ∧
    (forecastPoints demoCohort5).get ⟨0, by decide⟩ <
      (forecastPoints demoCohort5).get ⟨10, by decide⟩ ∧
    (forecastPoints demoCohort5).get ⟨1, by decide⟩ =
      (forecastPoints demoCohort5).get ⟨0, by decide⟩ + forecastStep :=
  ⟨(C5_forecastShape demoCohort4).1 (by decide),
   ((C5_forecastShape demoCohort5).2 (by decide)).1,
   ((C5_forecastShape demoCohort5).2 (by decide)).2.1,
   ((C5_forecastShape demoCohort5).2 (by decide)).2.2.1 0 10 (by decide) (by decide),
   ((C5_forecastShape demoCohort5).2 (by decide)).2.2.2 0 (by decide)⟩

end Dashboard
